import Mathlib

/-!
# Verification of `switch_connect_batch.py`

A shallow embedding of the command-line utility `switch_connect_batch.py`
(single-device SSH batch runner) together with proofs about its
command-source resolution, address validation, retry loop, session
execution and transcript logging.

The Python source is embedded as executable Lean definitions:

* Python string primitives (`str.split`, `str.strip`, `str.replace`) are
  modelled character-list-structurally (`splitChars`, `stripChars`, …);
* the standard-library collaborator `ipaddress.ip_address` is modelled by
  `ipv4Int` / `ipv6CoreOk` following CPython's parsing rules;
* effectful code (interactive prompts, the netmiko session, the
  filesystem) is modelled by explicit environments (`FS`, `AttemptEnv`)
  and traces (`AttemptResult`, `MainTrace`).
-/

/-! ## Python string primitives -/

/-- Whitespace characters recognised by Python's `str.strip()` (ASCII). -/
def pyIsSpace (c : Char) : Bool :=
  c = ' ' || c = '\t' || c = '\n' || c = '\r' || c = '\x0b' || c = '\x0c'

/-- Python `str.split(sep)` for a one-character separator, on character
lists.  `splitChars sep cs` always returns at least one piece. -/
def splitChars (sep : Char) : List Char → List (List Char)
  | [] => [[]]
  | c :: rest =>
    if c = sep then [] :: splitChars sep rest
    else
      match splitChars sep rest with
      | [] => [[c]]
      | h :: t => (c :: h) :: t

/-- Python `str.split(sep)` for a one-character separator. -/
def pySplit (sep : Char) (s : String) : List String :=
  (splitChars sep s.data).map String.mk

/-- Python `str.strip()` on character lists: drop leading and trailing
whitespace. -/
def stripChars (cs : List Char) : List Char :=
  (((cs.dropWhile pyIsSpace).reverse).dropWhile pyIsSpace).reverse

/-- Python `str.strip()`. -/
def pyStrip (s : String) : String :=
  String.mk (stripChars s.data)

/-- Python `str.replace(old, new)` for one-character arguments
(used as `host.replace('.', '_')`). -/
def pyReplace (old new : Char) (s : String) : String :=
  String.mk (s.data.map fun c => if c = old then new else c)

/-! ## The `ipaddress` collaborator

`validate_ip` delegates to the CPython standard-library function
`ipaddress.ip_address`, which accepts a string exactly when it parses as
an IPv4 or an IPv6 address.  The definitions below follow CPython's
`ipaddress._BaseV4._parse_octet` / `_ip_int_from_string` and
`_BaseV6._parse_hextet` / `_ip_int_from_string` (with scope-id handling
from `IPv6Address.__init__`). -/

/-- ASCII decimal digit. -/
def isDecDigit (c : Char) : Bool := '0' ≤ c && c ≤ '9'

/-- Value of a list of decimal digits (Python `int(s)` for digit strings). -/
def decVal (cs : List Char) : Nat :=
  cs.foldl (fun a c => 10 * a + (c.toNat - 48)) 0

/-- CPython `_parse_octet`: nonempty, all decimal digits, at most three
characters, no leading zero (unless the octet is exactly "0"), value at
most 255. -/
def parseOctet (s : String) : Option Nat :=
  let cs := s.data
  if cs.isEmpty then none
  else if !cs.all isDecDigit then none
  else if cs.length > 3 then none
  else if cs.length > 1 && cs.head? = some '0' then none
  else
    let v := decVal cs
    if v > 255 then none else some v

/-- CPython `_BaseV4._ip_int_from_string`: split on `'.'`, require exactly
four octets, parse each. -/
def ipv4Int (s : String) : Option Nat :=
  match pySplit '.' s with
  | [p1, p2, p3, p4] =>
    match parseOctet p1, parseOctet p2, parseOctet p3, parseOctet p4 with
    | some a, some b, some c, some d => some (((a * 256 + b) * 256 + c) * 256 + d)
    | _, _, _, _ => none
  | _ => none

/-- An IPv4 address string is accepted iff it parses. -/
def ipv4_ok (s : String) : Bool := (ipv4Int s).isSome

/-- ASCII hexadecimal digit. -/
def isHexDigitChar (c : Char) : Bool :=
  isDecDigit c || ('a' ≤ c && c ≤ 'f') || ('A' ≤ c && c ≤ 'F')

/-- Value of one hexadecimal digit character. -/
def hexDigitVal (c : Char) : Nat :=
  if isDecDigit c then c.toNat - 48
  else if 'a' ≤ c && c ≤ 'f' then c.toNat - 87
  else c.toNat - 55

/-- CPython `_parse_hextet`: all hexadecimal digits, nonempty, at most
four characters. -/
def parseHextet (s : String) : Option Nat :=
  let cs := s.data
  if !cs.all isHexDigitChar then none
  else if cs.length > 4 then none
  else if cs.isEmpty then none
  else some (cs.foldl (fun a c => 16 * a + hexDigitVal c) 0)

/-- Lowercase hexadecimal digit character for `n < 16`. -/
def hexDigitOf (n : Nat) : Char :=
  if n < 10 then Char.ofNat (48 + n) else Char.ofNat (87 + n)

/-- Python `'%x' % n` for `n < 65536`: minimal lowercase hexadecimal. -/
def hexRepr16 (n : Nat) : String :=
  let ds := [hexDigitOf (n / 4096 % 16), hexDigitOf (n / 256 % 16),
             hexDigitOf (n / 16 % 16), hexDigitOf (n % 16)]
  match ds.dropWhile (· = '0') with
  | [] => "0"
  | l => String.mk l

/-- Index (within a list of parts) of the first empty part, if any. -/
def findEmptyIdx : List String → Option Nat
  | [] => none
  | p :: ps => if p.data.isEmpty then some 0 else (findEmptyIdx ps).map (· + 1)

/-- Interior parts of an IPv6 split (everything but the first and last
part); CPython searches `range(1, len(parts) - 1)` for `'::'`. -/
def interiorParts (parts : List String) : List String :=
  (parts.drop 1).dropLast

/-- Check the hextet fields selected by CPython's final parse loop:
the first `hi` parts and the last `lo` parts must all parse. -/
def hextetFieldsOk (parts : List String) (hi lo : Nat) : Bool :=
  (parts.take hi ++ parts.drop (parts.length - lo)).all fun p => (parseHextet p).isSome

/-- CPython `_BaseV6._ip_int_from_string` (validity only): the core IPv6
grammar, after any scope id has been removed. -/
def ipv6CoreOk (s : String) : Bool :=
  if s.data.isEmpty then false
  else
    let parts0 := pySplit ':' s
    if parts0.length < 3 then false
    else
      let parts? : Option (List String) :=
        match parts0.getLast? with
        | some last =>
          if last.data.contains '.' then
            match ipv4Int last with
            | some v => some (parts0.dropLast ++ [hexRepr16 (v / 65536), hexRepr16 (v % 65536)])
            | none => none
          else some parts0
        | none => none
      match parts? with
      | none => false
      | some parts =>
        if parts.length > 9 then false
        else
          let interior := interiorParts parts
          let empties := interior.countP fun p => p.data.isEmpty
          if empties ≥ 2 then false
          else if empties = 1 then
            let si := 1 + ((findEmptyIdx interior).getD 0)
            let firstEmpty := (parts.head?.getD "x").data.isEmpty
            let lastEmpty := (parts.getLast?.getD "x").data.isEmpty
            let hi := si
            let lo := parts.length - si - 1
            if firstEmpty && hi - 1 ≠ 0 then false
            else if lastEmpty && lo - 1 ≠ 0 then false
            else
              let hi := if firstEmpty then hi - 1 else hi
              let lo := if lastEmpty then lo - 1 else lo
              if hi + lo > 7 then false
              else hextetFieldsOk parts hi lo
          else
            if parts.length ≠ 8 then false
            else if (parts.head?.getD "x").data.isEmpty then false
            else if (parts.getLast?.getD "x").data.isEmpty then false
            else parts.all fun p => (parseHextet p).isSome

/-- CPython `IPv6Address.__init__`: an optional nonempty scope id follows
the first `'%'`; the scope id must not itself contain `'%'`. -/
def ipv6_ok (s : String) : Bool :=
  match pySplit '%' s with
  | [addr] => ipv6CoreOk addr
  | [addr, scope] => !scope.data.isEmpty && ipv6CoreOk addr
  | _ => false

/-- `ipaddress.ip_address` succeeds iff the string parses as IPv4 or IPv6
(CPython tries `IPv4Address` first, then `IPv6Address`). -/
def ip_address_ok (s : String) : Bool := ipv4_ok s || ipv6_ok s

/-- `validate_ip` from the source: `True` iff `ipaddress.ip_address`
does not raise `ValueError`. -/
def validate_ip (ip_str : String) : Bool := ip_address_ok ip_str

/-! ## CommandSource Resolver (`load_commands`) -/

/-- Command-line arguments of the script (`argparse` result).  `--host`
and `--username` are required; `--commands` and `--file` default to
`None`. -/
structure Args where
  host : String
  username : String
  commands : Option String
  file : Option String

/-- The readable filesystem: maps a path to its text content, or `none`
when opening raises `FileNotFoundError`. -/
structure FS where
  read : String → Option String

/-- Python truthiness of an optional string (`if args.file:`):
`None` and the empty string are falsy. -/
def truthy : Option String → Bool
  | none => false
  | some s => !(s == "")

/-- The three failure modes of `load_commands`, distinguished in the
source by the error message printed before `return None`. -/
inductive LoadError where
  | emptyCommandSet
  | sourceNotFound
  | noCommandSourceProvided
deriving DecidableEq, Repr

/-- `[line.strip() for line in f if line.strip()]`. -/
def strippedLines (content : String) : List String :=
  ((pySplit '\n' content).map pyStrip).filter fun l => !(l == "")

/-- The `args.file` branch of `load_commands`. -/
def loadFromFile (f : String) (fs : FS) : Except LoadError (List String) :=
  match fs.read f with
  | some content =>
    if (strippedLines content).isEmpty then .error .emptyCommandSet
    else .ok (strippedLines content)
  | none => .error .sourceNotFound

/-- `[cmd.strip() for cmd in args.commands.split(',') if cmd.strip()]`. -/
def inlineCommands (s : String) : List String :=
  ((pySplit ',' s).map pyStrip).filter fun c => !(c == "")

/-- `load_commands` from the source.  The Python function prints an error
message and returns `None` on each failure path; the embedding returns
the corresponding `LoadError` instead (`.error e` ↔ `None` returned with
the message for `e` printed; `.ok cmds` ↔ `cmds` returned). -/
def load_commands (args : Args) (fs : FS) : Except LoadError (List String) :=
  if truthy args.file then loadFromFile (args.file.getD "") fs
  else if truthy args.commands then .ok (inlineCommands (args.commands.getD ""))
  else .error .noCommandSourceProvided

/-! ## Session Executor (`connect_and_run_commands`) -/

/-- Timestamp components for `datetime.now()`. -/
structure DateTime where
  year : Nat
  month : Nat
  day : Nat
  hour : Nat
  minute : Nat
  second : Nat
deriving DecidableEq

/-- Two-digit zero-padded decimal (strftime `%m`, `%d`, `%H`, `%M`, `%S`). -/
def pad2 (n : Nat) : String :=
  if n < 10 then "0" ++ Nat.repr n else Nat.repr n

/-- Four-digit zero-padded decimal (strftime `%Y`). -/
def pad4 (n : Nat) : String :=
  if n < 10 then "000" ++ Nat.repr n
  else if n < 100 then "00" ++ Nat.repr n
  else if n < 1000 then "0" ++ Nat.repr n
  else Nat.repr n

/-- `datetime.now().strftime("%Y%m%d_%H%M%S")`. -/
def fmtTimestamp (t : DateTime) : String :=
  pad4 t.year ++ pad2 t.month ++ pad2 t.day ++ "_" ++
    pad2 t.hour ++ pad2 t.minute ++ pad2 t.second

/-- Outcome of one `net_connect.send_command(cmd)` call: the captured
output, or a raised exception. -/
inductive SendResult where
  | ok (output : String)
  | exn (msg : String)

/-- An open remote session: `send n` is the outcome of the `n`-th
`send_command` call on it. -/
structure Conn where
  send : Nat → SendResult

/-- Outcome of `ConnectHandler(**device)`: the three exception classes
caught in the source, or an open session. -/
inductive ConnectOutcome where
  | timeout
  | authFailed
  | transportError (msg : String)
  | session (conn : Conn)

/-- Environment of one session attempt: what `ConnectHandler` does for
given host/username/password, and the current wall-clock time. -/
structure AttemptEnv where
  connect : String → String → String → ConnectOutcome
  now : DateTime

/-- One transcript record: `log.write(f"\n--- {cmd} ---\n{output}\n")`. -/
def logRecord (cmd output : String) : String :=
  "\n--- " ++ cmd ++ " ---\n" ++ output ++ "\n"

/-- `os.path.join(log_dir, f"{host.replace('.', '_')}_{timestamp}.log")`
with `log_dir = "logs"`. -/
def logPath (host : String) (now : DateTime) : String :=
  "logs" ++ "/" ++ pyReplace '.' '_' host ++ "_" ++ fmtTimestamp now ++ ".log"

/-- A log file on disk: its path and the sequence of strings written to
it, in order (the file content is their concatenation). -/
structure LogFile where
  path : String
  writes : List String
deriving DecidableEq

/-- Content of a log file: the concatenation of its writes. -/
def LogFile.content (l : LogFile) : String := String.join l.writes

/-- Result of one `connect_and_run_commands` call: the returned boolean,
the log file this attempt created (`none` when `open` was never
reached), and whether `net_connect.disconnect()` was called. -/
structure AttemptResult where
  success : Bool
  log : Option LogFile
  disconnected : Bool
deriving DecidableEq

/-- The `for cmd in commands` loop: send each command in order and
append a `logRecord` per command; an exception from `send_command`
aborts the loop (`false`), leaving the records written so far. -/
def execLoop (send : Nat → SendResult) : List String → List String × Bool
  | [] => ([], true)
  | c :: cs =>
    match send 0 with
    | .ok output =>
      let t := execLoop (fun n => send (n + 1)) cs
      (logRecord c output :: t.1, t.2)
    | .exn _ => ([], false)

/-- The records the loop writes for a command list when every send
succeeds, `out i` being the output of the `i`-th send. -/
def transcript (out : Nat → String) : List String → List String
  | [] => []
  | c :: cs => logRecord c (out 0) :: transcript (fun n => out (n + 1)) cs

/-- `connect_and_run_commands` from the source.  Connect; on success
open the timestamped log file under `logs/` and run every command,
writing one record per command; disconnect and return `True` only when
the whole batch ran.  Each of the three `except` arms returns `False`;
an exception raised inside the loop closes the (already created) log
file via `with` and is caught by the same arms, skipping
`disconnect()`. -/
def connect_and_run_commands (host username password : String)
    (commands : List String) (env : AttemptEnv) : AttemptResult :=
  match env.connect host username password with
  | .timeout => ⟨false, none, false⟩
  | .authFailed => ⟨false, none, false⟩
  | .transportError _ => ⟨false, none, false⟩
  | .session conn =>
    let res := execLoop conn.send commands
    if res.2 then ⟨true, some ⟨logPath host env.now, res.1⟩, true⟩
    else ⟨false, some ⟨logPath host env.now, res.1⟩, false⟩

/-! ## Orchestrator (`main`) -/

/-- Observable trace of one `main` invocation: which diagnostics were
printed, how many password prompts occurred, and the result of every
session attempt made (one network connection per entry). -/
structure MainTrace where
  invalidTargetReported : Bool
  loadInvoked : Bool
  loadErrorPrinted : Bool
  prompts : Nat
  attempts : List AttemptResult
  maxAuthReported : Bool
  overallSuccess : Bool
deriving DecidableEq

/-- `max_password_attempts = 3`. -/
def max_password_attempts : Nat := 3

/-- The session attempt made at loop iteration `i` (the body first
prompts — `pwds i` — then calls `connect_and_run_commands`). -/
def attemptOf (args : Args) (pwds : Nat → String) (envs : Nat → AttemptEnv)
    (cmds : List String) (i : Nat) : AttemptResult :=
  connect_and_run_commands args.host args.username (pwds i) cmds (envs i)

/-- `for attempt in range(1, max_password_attempts + 1)`: run attempts
until one succeeds; returns the attempt results in order, the overall
success flag, and whether the maximum-attempts error was printed
(printed exactly when the attempt numbered `maxA` fails). -/
def mainLoop (att : Nat → AttemptResult) (maxA : Nat) :
    List Nat → List AttemptResult × Bool × Bool
  | [] => ([], false, false)
  | i :: rest =>
    let r := att i
    if r.success then ([r], true, false)
    else
      let t := mainLoop att maxA rest
      (r :: t.1, t.2.1, t.2.2 || (i == maxA))

namespace SwitchConnectBatch

/-- `main` from the source: validate the host, resolve the command
batch (`if not commands: return` treats both `None` and the empty list
as absent), then loop over password attempts. -/
def main (args : Args) (fs : FS) (pwds : Nat → String)
    (envs : Nat → AttemptEnv) : MainTrace :=
  if validate_ip args.host = false then
    ⟨true, false, false, 0, [], false, false⟩
  else
    match load_commands args fs with
    | .error _ => ⟨false, true, true, 0, [], false, false⟩
    | .ok [] => ⟨false, true, false, 0, [], false, false⟩
    | .ok (c :: cs) =>
      let t := mainLoop (attemptOf args pwds envs (c :: cs))
        max_password_attempts (List.range' 1 max_password_attempts)
      ⟨false, true, false, t.1.length, t.1, t.2.2, t.2.1⟩

end SwitchConnectBatch

/-! ## Helper lemmas -/

theorem dropWhile_head_not (p : α → Bool) (l : List α) :
    ∀ a, (l.dropWhile p).head? = some a → p a = false := by
  induction l with
  | nil => intro a h; simp [List.dropWhile] at h
  | cons x xs ih =>
    intro a h
    rw [List.dropWhile_cons] at h
    by_cases hx : p x = true
    · rw [if_pos hx] at h; exact ih a h
    · rw [if_neg hx] at h
      simp only [List.head?_cons, Option.some.injEq] at h
      subst h
      simpa using hx

theorem dropWhile_isSuffix (p : α → Bool) (l : List α) : l.dropWhile p <:+ l := by
  induction l with
  | nil => simp
  | cons x xs ih =>
    rw [List.dropWhile_cons]
    by_cases hx : p x = true
    · rw [if_pos hx]; exact ih.trans (List.suffix_cons x xs)
    · rw [if_neg hx]

theorem getLast?_of_isSuffix {l₁ l₂ : List α} (h : l₁ <:+ l₂) (hne : l₁ ≠ []) :
    l₁.getLast? = l₂.getLast? := by
  obtain ⟨t, rfl⟩ := h
  rw [List.getLast?_append_of_ne_nil t hne]

theorem stripChars_head_not (cs : List Char) :
    ∀ a, (stripChars cs).head? = some a → pyIsSpace a = false := by
  intro a h
  unfold stripChars at h
  rw [List.head?_reverse] at h
  have hne : ((cs.dropWhile pyIsSpace).reverse.dropWhile pyIsSpace) ≠ [] := by
    intro hnil; rw [hnil] at h; simp at h
  rw [getLast?_of_isSuffix (dropWhile_isSuffix _ _) hne, List.getLast?_reverse] at h
  exact dropWhile_head_not _ _ a h

theorem stripChars_getLast_not (cs : List Char) :
    ∀ a, (stripChars cs).getLast? = some a → pyIsSpace a = false := by
  intro a h
  unfold stripChars at h
  rw [List.getLast?_reverse] at h
  exact dropWhile_head_not _ _ a h

/-- Every resolved batch is the nonempty-after-trim filter of a list of
trimmed pieces. -/
theorem load_commands_ok_shape (args : Args) (fs : FS) (cmds : List String)
    (h : load_commands args fs = .ok cmds) :
    ∃ l : List String, cmds = (l.map pyStrip).filter fun c => !(c == "") := by
  unfold load_commands loadFromFile at h
  split at h
  · split at h
    · split at h
      · exact absurd h (by simp)
      · simp only [Except.ok.injEq] at h
        exact ⟨pySplit '\n' _, by rw [← h]; rfl⟩
    · exact absurd h (by simp)
  · split at h
    · simp only [Except.ok.injEq] at h
      exact ⟨pySplit ',' (args.commands.getD ""), by rw [← h]; rfl⟩
    · exact absurd h (by simp)

theorem truthy_eq_true_iff (o : Option String) :
    truthy o = true ↔ ∃ s, o = some s ∧ s ≠ "" := by
  cases o with
  | none => simp [truthy]
  | some s => simp [truthy]

theorem truthy_eq_false_iff (o : Option String) :
    truthy o = false ↔ (o = none ∨ o = some "") := by
  cases o with
  | none => simp [truthy]
  | some s => simp [truthy]

/-! ## Claim C2 — precedence between `--commands` and `--file` -/

/-- Filesystem fixture: `cmds.txt` holds one command, `show clock`. -/
def fsBoth : FS := ⟨fun p => if p = "cmds.txt" then some "show clock\n" else none⟩

/-- Same fixture with different file content, to observe that the file
is read. -/
def fsBoth' : FS := ⟨fun p => if p = "cmds.txt" then some "show ip\n" else none⟩

/-- Claim C2 counterexample: with both `--commands "show version"` and
`--file cmds.txt` given, the resolved batch comes from the file, not
from the inline string, and the file IS read (changing its content
changes the result). -/
theorem C2_inline_precedence_counterexample :
    load_commands ⟨"10.0.0.1", "cisco", some "show version", some "cmds.txt"⟩ fsBoth =
      .ok ["show clock"]
    ∧ load_commands ⟨"10.0.0.1", "cisco", some "show version", some "cmds.txt"⟩ fsBoth ≠
      .ok ["show version"]
    ∧ load_commands ⟨"10.0.0.1", "cisco", some "show version", some "cmds.txt"⟩ fsBoth' =
      .ok ["show ip"] := by
  refine ⟨rfl, ?_, rfl⟩
  intro h
  rw [show load_commands ⟨"10.0.0.1", "cisco", some "show version", some "cmds.txt"⟩ fsBoth =
    .ok ["show clock"] from rfl] at h
  injection h with h'
  injection h' with h1 _
  exact absurd h1 (by decide)

/-- Claim C2 (amended): when both an inline command string and a
(nonempty) command-file path are provided, the FILE takes precedence:
the resolved batch is exactly the file's batch, and the inline string is
ignored (the result does not depend on it). -/
theorem C2_file_takes_precedence (host user f : String) (c1 c2 : Option String)
    (fs : FS) (hf : f ≠ "") :
    load_commands ⟨host, user, c1, some f⟩ fs = loadFromFile f fs
    ∧ load_commands ⟨host, user, c1, some f⟩ fs =
      load_commands ⟨host, user, c2, some f⟩ fs := by
  have ht : truthy (some f) = true := by simp [truthy, hf]
  constructor
  · unfold load_commands
    rw [if_pos ht]
    rfl
  · unfold load_commands
    rw [if_pos ht, if_pos ht]

theorem C2_file_takes_precedence_witness :
    load_commands ⟨"10.0.0.1", "cisco", some "show version", some "cmds.txt"⟩ fsBoth =
      loadFromFile "cmds.txt" fsBoth :=
  (C2_file_takes_precedence "10.0.0.1" "cisco" "cmds.txt"
    (some "show version") none fsBoth (by decide)).1

/-! ## Claim C7 — the resolver's error taxonomy -/

/-- Claim C7: command-source resolution fails with exactly one of three
distinct error conditions — `EmptyCommandSet` iff the given (truthy)
file exists but yields no non-blank line, `SourceNotFound` iff the given
file path does not exist, `NoCommandSourceProvided` iff neither source
is given — and a failure never carries a command batch. -/
theorem C7_resolver_error_taxonomy (args : Args) (fs : FS) :
    (load_commands args fs = .error .noCommandSourceProvided ↔
      truthy args.file = false ∧ truthy args.commands = false)
    ∧ (load_commands args fs = .error .sourceNotFound ↔
      ∃ f, args.file = some f ∧ f ≠ "" ∧ fs.read f = none)
    ∧ (load_commands args fs = .error .emptyCommandSet ↔
      ∃ f content, args.file = some f ∧ f ≠ "" ∧ fs.read f = some content ∧
        strippedLines content = [])
    ∧ ∀ e, load_commands args fs = .error e →
        (e = .emptyCommandSet ∨ e = .sourceNotFound ∨ e = .noCommandSourceProvided)
        ∧ ∀ cmds, load_commands args fs ≠ .ok cmds := by
  by_cases hf : truthy args.file = true
  · obtain ⟨f, hfe, hfne⟩ := (truthy_eq_true_iff args.file).mp hf
    have hl : load_commands args fs = loadFromFile f fs := by
      unfold load_commands
      rw [if_pos hf, hfe]
      rfl
    unfold loadFromFile at hl
    cases hr : fs.read f with
    | none =>
      rw [hr] at hl
      replace hl : load_commands args fs = .error .sourceNotFound := hl
      rw [hl]
      refine ⟨⟨fun h => by simp at h, fun h12 => absurd h12.1 (by simp [hf])⟩,
              ⟨fun _ => ⟨f, hfe, hfne, hr⟩, fun _ => rfl⟩,
              ⟨fun h => by simp at h, ?_⟩, ?_⟩
      · rintro ⟨f', c', hfe', -, hr', -⟩
        rw [hfe] at hfe'
        injection hfe' with hff
        rw [← hff] at hr'
        rw [hr] at hr'
        exact absurd hr' (by simp)
      · intro e he
        refine ⟨?_, fun cmds hc => by simp at hc⟩
        injection he with he'
        exact Or.inr (Or.inl he'.symm)
    | some content =>
      rw [hr] at hl
      replace hl : load_commands args fs =
        if (strippedLines content).isEmpty = true then .error .emptyCommandSet
        else .ok (strippedLines content) := hl
      by_cases hemp : (strippedLines content).isEmpty = true
      · rw [if_pos hemp] at hl
        rw [hl]
        refine ⟨⟨fun h => by simp at h, fun h12 => absurd h12.1 (by simp [hf])⟩,
                ⟨fun h => by simp at h, ?_⟩,
                ⟨fun _ => ⟨f, content, hfe, hfne, hr, by simpa using hemp⟩, fun _ => rfl⟩, ?_⟩
        · rintro ⟨f', hfe', -, hr'⟩
          rw [hfe] at hfe'
          injection hfe' with hff
          rw [← hff] at hr'
          rw [hr] at hr'
          exact absurd hr' (by simp)
        · intro e he
          refine ⟨?_, fun cmds hc => by simp at hc⟩
          injection he with he'
          exact Or.inl he'.symm
      · rw [if_neg hemp] at hl
        rw [hl]
        refine ⟨⟨fun h => by simp at h, fun h12 => absurd h12.1 (by simp [hf])⟩,
                ⟨fun h => by simp at h, ?_⟩,
                ⟨fun h => by simp at h, ?_⟩,
                fun e he => absurd he (by simp)⟩
        · rintro ⟨f', hfe', -, hr'⟩
          rw [hfe] at hfe'
          injection hfe' with hff
          rw [← hff] at hr'
          rw [hr] at hr'
          exact absurd hr' (by simp)
        · rintro ⟨f', c', hfe', -, hr', hsl⟩
          rw [hfe] at hfe'
          injection hfe' with hff
          rw [← hff] at hr'
          rw [hr] at hr'
          injection hr' with hcc
          rw [← hcc] at hsl
          exact (hemp (by rw [hsl]; rfl)).elim
  · have hf' : truthy args.file = false := by
      cases h : truthy args.file with
      | true => exact absurd h hf
      | false => rfl
    have hl : load_commands args fs =
        if truthy args.commands = true then .ok (inlineCommands (args.commands.getD ""))
        else .error .noCommandSourceProvided := by
      unfold load_commands
      rw [if_neg hf]
    have hnofile : ∀ f' : String, args.file = some f' → f' ≠ "" → False := by
      intro f' hfe' hfne'
      rcases (truthy_eq_false_iff args.file).mp hf' with h0 | h0
      · rw [h0] at hfe'; exact absurd hfe' (by simp)
      · rw [h0] at hfe'
        injection hfe' with hff
        exact hfne' hff.symm
    by_cases hc : truthy args.commands = true
    · rw [if_pos hc] at hl
      rw [hl]
      refine ⟨⟨fun h => by simp at h, fun h12 => absurd h12.2 (by simp [hc])⟩,
              ⟨fun h => by simp at h, ?_⟩,
              ⟨fun h => by simp at h, ?_⟩,
              fun e he => absurd he (by simp)⟩
      · rintro ⟨f', hfe', hfne', -⟩
        exact (hnofile f' hfe' hfne').elim
      · rintro ⟨f', c', hfe', hfne', -, -⟩
        exact (hnofile f' hfe' hfne').elim
    · rw [if_neg hc] at hl
      rw [hl]
      have hc' : truthy args.commands = false := by
        cases h : truthy args.commands with
        | true => exact absurd h hc
        | false => rfl
      refine ⟨⟨fun _ => ⟨hf', hc'⟩, fun _ => rfl⟩,
              ⟨fun h => by simp at h, ?_⟩,
              ⟨fun h => by simp at h, ?_⟩, ?_⟩
      · rintro ⟨f', hfe', hfne', -⟩
        exact (hnofile f' hfe' hfne').elim
      · rintro ⟨f', c', hfe', hfne', -, -⟩
        exact (hnofile f' hfe' hfne').elim
      · intro e he
        refine ⟨?_, fun cmds hcm => by simp at hcm⟩
        injection he with he'
        exact Or.inr (Or.inr he'.symm)

theorem C7_resolver_error_taxonomy_witness :
    load_commands ⟨"10.0.0.1", "cisco", none, none⟩ ⟨fun _ => none⟩ =
      .error .noCommandSourceProvided :=
  (C7_resolver_error_taxonomy ⟨"10.0.0.1", "cisco", none, none⟩
    ⟨fun _ => none⟩).1.mpr ⟨rfl, rfl⟩

/-! ## Claim C6 — trimmed, non-empty, ordered command batches -/

/-- Filesystem fixture: `cmds.txt` holds `"show version\n\nshow vlan\n"`. -/
def fsFileExample : FS :=
  ⟨fun p => if p = "cmds.txt" then some "show version\n\nshow vlan\n" else none⟩

/-- Claim C6: the resolver produces trimmed, non-empty commands in
source order — the inline string `"show version, show vlan"` resolves to
`["show version", "show vlan"]`, the file `"show version\n\nshow vlan\n"`
resolves to the same batch, every resolved batch preserves the relative
order of its source pieces (it is a sublist of the trimmed pieces), and
every resolved command is non-empty with no leading or trailing
whitespace. -/
theorem C6_resolver_trims_and_orders :
    (∀ fs : FS,
      load_commands ⟨"10.0.0.1", "cisco", some "show version, show vlan", none⟩ fs =
        .ok ["show version", "show vlan"])
    ∧ load_commands ⟨"10.0.0.1", "cisco", none, some "cmds.txt"⟩ fsFileExample =
        .ok ["show version", "show vlan"]
    ∧ (∀ content : String,
        List.Sublist (strippedLines content) ((pySplit '\n' content).map pyStrip))
    ∧ (∀ s : String,
        List.Sublist (inlineCommands s) ((pySplit ',' s).map pyStrip))
    ∧ ∀ (args : Args) (fs : FS) (cmds : List String),
        load_commands args fs = .ok cmds → ∀ c ∈ cmds,
          c ≠ ""
          ∧ (∀ a, c.data.head? = some a → pyIsSpace a = false)
          ∧ (∀ a, c.data.getLast? = some a → pyIsSpace a = false) := by
  refine ⟨fun fs => rfl, rfl, fun content => List.filter_sublist _,
    fun s => List.filter_sublist _, ?_⟩
  intro args fs cmds h c hc
  obtain ⟨l, rfl⟩ := load_commands_ok_shape args fs cmds h
  rw [List.mem_filter] at hc
  obtain ⟨hmem, hne⟩ := hc
  rw [List.mem_map] at hmem
  obtain ⟨x, -, rfl⟩ := hmem
  refine ⟨by simpa using hne, ?_, ?_⟩
  · intro a ha
    exact stripChars_head_not x.data a ha
  · intro a ha
    exact stripChars_getLast_not x.data a ha

theorem C6_resolver_trims_and_orders_witness :
    "show version" ≠ ""
    ∧ (∀ a, ("show version" : String).data.head? = some a → pyIsSpace a = false)
    ∧ (∀ a, ("show version" : String).data.getLast? = some a → pyIsSpace a = false) :=
  C6_resolver_trims_and_orders.2.2.2.2
    ⟨"10.0.0.1", "cisco", some "show version, show vlan", none⟩
    ⟨fun _ => none⟩ ["show version", "show vlan"] rfl "show version" (by simp)

/-! ## Claim C8 — no session attempt without a non-empty batch -/

/-- Whether the `load_commands` call printed an error diagnostic
(each `.error` branch prints; the `.ok` branches print nothing). -/
def reportsLoadError : Except LoadError (List String) → Bool
  | .error _ => true
  | .ok _ => false

/-- Claim C8 counterexample: with `--commands ",,,"` the batch resolves
to the empty list and `main` exits with NO error printed (the claim says
an error is printed in every such run): `loadErrorPrinted = false` while
no prompt, no attempt and no success occur. -/
theorem C8_silent_empty_inline_counterexample :
    load_commands ⟨"10.0.0.1", "cisco", some ",,,", none⟩ ⟨fun _ => none⟩ = .ok []
    ∧ SwitchConnectBatch.main ⟨"10.0.0.1", "cisco", some ",,,", none⟩ ⟨fun _ => none⟩
        (fun _ => "pw") (fun _ => ⟨fun _ _ _ => .timeout, ⟨2026, 1, 1, 0, 0, 0⟩⟩) =
      ⟨false, true, false, 0, [], false, false⟩ :=
  ⟨rfl, rfl⟩

/-- Claim C8 (amended): for every invocation in which neither
`--commands` nor `--file` yields a non-empty command batch, the process
performs no network action, prompts for no password, and exits before
any session attempt; an error is printed when resolution fails
(no source, missing file, all-blank file), but the exit is silent when
an inline string resolves to an empty batch. -/
theorem C8_no_session_without_commands (args : Args) (fs : FS)
    (pwds : Nat → String) (envs : Nat → AttemptEnv)
    (hv : validate_ip args.host = true)
    (h : (∃ e, load_commands args fs = .error e) ∨ load_commands args fs = .ok []) :
    SwitchConnectBatch.main args fs pwds envs =
      ⟨false, true, reportsLoadError (load_commands args fs), 0, [], false, false⟩ := by
  unfold SwitchConnectBatch.main
  rw [hv]
  rcases h with ⟨e, he⟩ | he
  · rw [he]
    rfl
  · rw [he]
    rfl

theorem C8_no_session_without_commands_witness :
    SwitchConnectBatch.main ⟨"10.0.0.1", "cisco", none, some "gone.txt"⟩ ⟨fun _ => none⟩
        (fun _ => "pw") (fun _ => ⟨fun _ _ _ => .timeout, ⟨2026, 1, 1, 0, 0, 0⟩⟩) =
      ⟨false, true,
        reportsLoadError (load_commands ⟨"10.0.0.1", "cisco", none, some "gone.txt"⟩
          ⟨fun _ => none⟩), 0, [], false, false⟩ :=
  C8_no_session_without_commands ⟨"10.0.0.1", "cisco", none, some "gone.txt"⟩
    ⟨fun _ => none⟩ (fun _ => "pw") (fun _ => ⟨fun _ _ _ => .timeout, ⟨2026, 1, 1, 0, 0, 0⟩⟩)
    (by decide) (Or.inl ⟨.sourceNotFound, rfl⟩)

/-! ## Session executor lemmas -/

theorem transcript_length (cs : List String) :
    ∀ out : Nat → String, (transcript out cs).length = cs.length := by
  induction cs with
  | nil => intro out; rfl
  | cons c cs ih =>
    intro out
    simp [transcript, ih]

theorem transcript_get? (cs : List String) :
    ∀ (out : Nat → String) (i : Nat) (c : String), cs.get? i = some c →
      (transcript out cs).get? i = some ("\n--- " ++ c ++ " ---\n" ++ out i ++ "\n") := by
  induction cs with
  | nil => intro out i c h; simp at h
  | cons c0 cs ih =>
    intro out i c h
    cases i with
    | zero =>
      simp only [List.get?_cons_zero, Option.some.injEq] at h
      subst h
      rfl
    | succ i =>
      simp only [List.get?_cons_succ] at h
      simpa [transcript] using ih (fun n => out (n + 1)) i c h

theorem execLoop_all_ok (cs : List String) :
    ∀ (send : Nat → SendResult) (out : Nat → String),
      (∀ i, i < cs.length → send i = .ok (out i)) →
      execLoop send cs = (transcript out cs, true) := by
  induction cs with
  | nil => intro send out _; rfl
  | cons c cs ih =>
    intro send out h
    have h0 : send 0 = .ok (out 0) := h 0 (by simp)
    have hrest : ∀ i, i < cs.length → send (i + 1) = .ok (out (i + 1)) :=
      fun i hi => h (i + 1) (by simpa using hi)
    unfold execLoop
    rw [h0, ih (fun n => send (n + 1)) (fun n => out (n + 1)) hrest]
    rfl

theorem execLoop_fail_at (cs : List String) :
    ∀ (send : Nat → SendResult) (out : Nat → String) (k : Nat) (e : String),
      k < cs.length → (∀ i, i < k → send i = .ok (out i)) → send k = .exn e →
      execLoop send cs = (transcript out (cs.take k), false) := by
  induction cs with
  | nil => intro send out k e hk _ _; simp at hk
  | cons c cs ih =>
    intro send out k e hk hok he
    cases k with
    | zero =>
      unfold execLoop
      rw [he]
      rfl
    | succ k =>
      have h0 : send 0 = .ok (out 0) := hok 0 (Nat.succ_pos k)
      have hrest : ∀ i, i < k → send (i + 1) = .ok (out (i + 1)) :=
        fun i hi => hok (i + 1) (Nat.succ_lt_succ hi)
      unfold execLoop
      rw [h0, ih (fun n => send (n + 1)) (fun n => out (n + 1)) k e (by simpa using hk) hrest he]
      rfl

/-! ## Claim C9 — the password does not flow into the log -/

/-- Session environment fixture: every connection succeeds and every
command returns `"OK"`. -/
def demoEnvOK : AttemptEnv :=
  ⟨fun _ _ _ => .session ⟨fun _ => .ok "OK"⟩, ⟨2026, 10, 12, 3, 4, 5⟩⟩

/-- Claim C9: the written log is a function only of the target host, the
command batch and the session outputs — two session runs that differ
only in the password value, with the same connect outcome and clock,
produce identical results (in particular identical log files; the
password is never written). -/
theorem C9_password_noninterference (host user : String) (cmds : List String)
    (p1 p2 : String) (env1 env2 : AttemptEnv)
    (hc : env1.connect host user p1 = env2.connect host user p2)
    (hn : env1.now = env2.now) :
    connect_and_run_commands host user p1 cmds env1 =
      connect_and_run_commands host user p2 cmds env2 := by
  unfold connect_and_run_commands
  rw [hc, hn]

theorem C9_password_noninterference_witness :
    connect_and_run_commands "10.0.0.1" "cisco" "hunter2" ["show version"] demoEnvOK =
      connect_and_run_commands "10.0.0.1" "cisco" "swordfish" ["show version"] demoEnvOK :=
  C9_password_noninterference "10.0.0.1" "cisco" ["show version"] "hunter2" "swordfish"
    demoEnvOK demoEnvOK rfl rfl

/-! ## Claim C4 — every session-level fault is a boolean failure -/

/-- Session environment fixture: every connection attempt times out. -/
def demoEnvDown : AttemptEnv := ⟨fun _ _ _ => .timeout, ⟨2026, 1, 1, 0, 0, 0⟩⟩

/-- Claim C4: `connect_and_run_commands` reports a connection timeout,
an authentication rejection and any other transport fault on connect
uniformly as `False` with no log file created and no disconnect; a fault
inside the command loop also yields `False` (no partial-success outcome
exists). -/
theorem C4_run_reports_faults_as_failure (host user pwd : String)
    (cmds : List String) (env : AttemptEnv) :
    (env.connect host user pwd = .timeout →
      connect_and_run_commands host user pwd cmds env = ⟨false, none, false⟩)
    ∧ (env.connect host user pwd = .authFailed →
      connect_and_run_commands host user pwd cmds env = ⟨false, none, false⟩)
    ∧ (∀ m, env.connect host user pwd = .transportError m →
      connect_and_run_commands host user pwd cmds env = ⟨false, none, false⟩)
    ∧ ∀ conn, env.connect host user pwd = .session conn →
        (execLoop conn.send cmds).2 = false →
        (connect_and_run_commands host user pwd cmds env).success = false := by
  refine ⟨?_, ?_, ?_, ?_⟩
  · intro h
    unfold connect_and_run_commands
    rw [h]
  · intro h
    unfold connect_and_run_commands
    rw [h]
  · intro m h
    unfold connect_and_run_commands
    rw [h]
  · intro conn h hfail
    unfold connect_and_run_commands
    rw [h]
    simp [hfail]

theorem C4_run_reports_faults_as_failure_witness :
    connect_and_run_commands "10.0.0.1" "cisco" "pw" ["show version"] demoEnvDown =
      ⟨false, none, false⟩ :=
  (C4_run_reports_faults_as_failure "10.0.0.1" "cisco" "pw" ["show version"] demoEnvDown).1 rfl

/-! ## Claim C10 — a mid-batch fault is non-atomic and skips disconnect -/

/-- Claim C10: when the first `k` sends succeed and the `(k+1)`-st raises
a transport error, the attempt returns failure but the log file exists
and holds exactly the first `k` transcript records, and `disconnect` is
not called (in every run, disconnect happens exactly on success). -/
theorem C10_midbatch_fault_not_atomic (host user pwd : String) (cmds : List String)
    (env : AttemptEnv) (conn : Conn) (out : Nat → String) (k : Nat) (e : String)
    (hc : env.connect host user pwd = .session conn)
    (hk : k < cmds.length)
    (hok : ∀ i, i < k → conn.send i = .ok (out i))
    (he : conn.send k = .exn e) :
    connect_and_run_commands host user pwd cmds env =
      ⟨false, some ⟨logPath host env.now, transcript out (cmds.take k)⟩, false⟩
    ∧ (transcript out (cmds.take k)).length = k
    ∧ ∀ env' : AttemptEnv,
        (connect_and_run_commands host user pwd cmds env').disconnected =
          (connect_and_run_commands host user pwd cmds env').success := by
  have hexec := execLoop_fail_at cmds conn.send out k e hk hok he
  refine ⟨?_, ?_, ?_⟩
  · unfold connect_and_run_commands
    rw [hc]
    simp [hexec]
  · rw [transcript_length]
    simp only [List.length_take]
    omega
  · intro env'
    unfold connect_and_run_commands
    cases h' : env'.connect host user pwd with
    | timeout => rfl
    | authFailed => rfl
    | transportError m => rfl
    | session conn' =>
      by_cases h2 : (execLoop conn'.send cmds).2 = true
      · simp [h2]
      · simp [h2]

/-- Fixture for the witness: the first send succeeds, the second raises. -/
def demoEnvFault : AttemptEnv :=
  ⟨fun _ _ _ => .session ⟨fun n => if n < 1 then .ok "out" else .exn "boom"⟩,
   ⟨2026, 10, 12, 3, 4, 5⟩⟩

theorem C10_midbatch_fault_not_atomic_witness :
    connect_and_run_commands "10.0.0.1" "cisco" "pw" ["a", "b", "c"] demoEnvFault =
      ⟨false, some ⟨logPath "10.0.0.1" demoEnvFault.now,
        transcript (fun _ => "out") (["a", "b", "c"].take 1)⟩, false⟩ :=
  (C10_midbatch_fault_not_atomic "10.0.0.1" "cisco" "pw" ["a", "b", "c"] demoEnvFault
    ⟨fun n => if n < 1 then .ok "out" else .exn "boom"⟩ (fun _ => "out") 1 "boom"
    rfl (by decide) (fun i hi => by simp [hi]) rfl).1

/-! ## Claim C3 — log file location, name and transcript format -/

/-- The per-command entry format as the claim words it: a header line
containing the command text, followed by the raw captured output, with a
TRAILING blank line. -/
def specTranscriptEntry (cmd output : String) : String :=
  "--- " ++ cmd ++ " ---\n" ++ output ++ "\n" ++ "\n"

/-- Claim C3 counterexample: for a successful one-command session the
record actually written is `"\n--- show version ---\nOK\n"` — the blank
line LEADS the entry and no trailing blank line is written (the file
does not end with a blank line), so the entry differs from the claimed
trailing-blank-line format. -/
theorem C3_trailing_blank_line_counterexample :
    (connect_and_run_commands "192.168.1.102" "cisco" "pw" ["show version"] demoEnvOK).log =
      some ⟨"logs/192_168_1_102_20261012_030405.log", ["\n--- show version ---\nOK\n"]⟩
    ∧ "\n--- show version ---\nOK\n" ≠ specTranscriptEntry "show version" "OK"
    ∧ ¬ (List.isSuffixOf "\n\n".data
          (LogFile.content ⟨"logs/192_168_1_102_20261012_030405.log",
            ["\n--- show version ---\nOK\n"]⟩).data) := by
  refine ⟨rfl, by decide, by decide⟩

/-- Claim C3 (amended): every successful session run creates exactly one
log file, at `logs/<host with '.' replaced by '_'>_<YYYYMMDD_HHMMSS>.log`,
whose content is one transcript record per command of the batch, in
batch order, each record being a LEADING blank line, a header line
containing the command text, then the raw captured output terminated by
a newline (`"\n--- <cmd> ---\n<output>\n"`). -/
theorem C3_log_file_and_transcript (host user pwd : String) (cmds : List String)
    (env : AttemptEnv) (conn : Conn) (out : Nat → String)
    (hc : env.connect host user pwd = .session conn)
    (hok : ∀ i, i < cmds.length → conn.send i = .ok (out i)) :
    connect_and_run_commands host user pwd cmds env =
      ⟨true, some ⟨"logs" ++ "/" ++ pyReplace '.' '_' host ++ "_" ++
        fmtTimestamp env.now ++ ".log", transcript out cmds⟩, true⟩
    ∧ (transcript out cmds).length = cmds.length
    ∧ ∀ i c, cmds.get? i = some c →
        (transcript out cmds).get? i = some ("\n--- " ++ c ++ " ---\n" ++ out i ++ "\n") := by
  refine ⟨?_, transcript_length cmds out, fun i c h => transcript_get? cmds out i c h⟩
  unfold connect_and_run_commands
  rw [hc]
  simp [execLoop_all_ok cmds conn.send out hok, logPath]

theorem C3_log_file_and_transcript_witness :
    connect_and_run_commands "192.168.1.102" "cisco" "pw" ["show version", "show vlan"]
        demoEnvOK =
      ⟨true, some ⟨"logs" ++ "/" ++ pyReplace '.' '_' "192.168.1.102" ++ "_" ++
        fmtTimestamp demoEnvOK.now ++ ".log",
        transcript (fun _ => "OK") ["show version", "show vlan"]⟩, true⟩ :=
  (C3_log_file_and_transcript "192.168.1.102" "cisco" "pw" ["show version", "show vlan"]
    demoEnvOK ⟨fun _ => .ok "OK"⟩ (fun _ => "OK") rfl (fun _ _ => rfl)).1

/-! ## Claim C1 — the bounded password retry loop -/

/-- Claim C1: with a resolved non-empty batch, when every attempt fails
(whatever the failure kind) exactly 3 password prompts occur, the
maximum-attempts error is reported and no success; when attempt `k`
(1 ≤ k ≤ 3) succeeds after failures, exactly `k` prompts occur, the loop
stops with overall success and no maximum-attempts report. -/
theorem C1_retry_loop_bound (args : Args) (fs : FS) (pwds : Nat → String)
    (envs : Nat → AttemptEnv) (cmds : List String)
    (hv : validate_ip args.host = true)
    (hl : load_commands args fs = .ok cmds) (hne : cmds ≠ []) :
    ((∀ i, 1 ≤ i → i ≤ 3 → (attemptOf args pwds envs cmds i).success = false) →
      (SwitchConnectBatch.main args fs pwds envs).prompts = 3
      ∧ (SwitchConnectBatch.main args fs pwds envs).maxAuthReported = true
      ∧ (SwitchConnectBatch.main args fs pwds envs).overallSuccess = false)
    ∧ ∀ k, 1 ≤ k → k ≤ 3 →
        (attemptOf args pwds envs cmds k).success = true →
        (∀ j, 1 ≤ j → j < k → (attemptOf args pwds envs cmds j).success = false) →
        (SwitchConnectBatch.main args fs pwds envs).prompts = k
        ∧ (SwitchConnectBatch.main args fs pwds envs).maxAuthReported = false
        ∧ (SwitchConnectBatch.main args fs pwds envs).overallSuccess = true := by
  obtain ⟨c, cs, rfl⟩ := List.exists_cons_of_ne_nil hne
  have hmain : SwitchConnectBatch.main args fs pwds envs =
      ⟨false, true, false,
        (mainLoop (attemptOf args pwds envs (c :: cs)) 3 [1, 2, 3]).1.length,
        (mainLoop (attemptOf args pwds envs (c :: cs)) 3 [1, 2, 3]).1,
        (mainLoop (attemptOf args pwds envs (c :: cs)) 3 [1, 2, 3]).2.2,
        (mainLoop (attemptOf args pwds envs (c :: cs)) 3 [1, 2, 3]).2.1⟩ := by
    unfold SwitchConnectBatch.main
    rw [hv, hl]
    rfl
  rw [hmain]
  constructor
  · intro hfail
    have h1 := hfail 1 (by omega) (by omega)
    have h2 := hfail 2 (by omega) (by omega)
    have h3 := hfail 3 (by omega) (by omega)
    simp [mainLoop, h1, h2, h3]
  · intro k hk1 hk3 hsucc hprev
    interval_cases k
    · simp [mainLoop, hsucc]
    · have h1 := hprev 1 (by omega) (by omega)
      simp [mainLoop, h1, hsucc]
    · have h1 := hprev 1 (by omega) (by omega)
      have h2 := hprev 2 (by omega) (by omega)
      simp [mainLoop, h1, h2, hsucc]

theorem C1_retry_loop_bound_witness :
    (SwitchConnectBatch.main ⟨"10.0.0.1", "cisco", some "show version", none⟩
      ⟨fun _ => none⟩ (fun _ => "pw") (fun _ => demoEnvDown)).prompts = 3
    ∧ (SwitchConnectBatch.main ⟨"10.0.0.1", "cisco", some "show version", none⟩
      ⟨fun _ => none⟩ (fun _ => "pw") (fun _ => demoEnvDown)).maxAuthReported = true
    ∧ (SwitchConnectBatch.main ⟨"10.0.0.1", "cisco", some "show version", none⟩
      ⟨fun _ => none⟩ (fun _ => "pw") (fun _ => demoEnvDown)).overallSuccess = false :=
  (C1_retry_loop_bound ⟨"10.0.0.1", "cisco", some "show version", none⟩ ⟨fun _ => none⟩
    (fun _ => "pw") (fun _ => demoEnvDown) ["show version"] (by decide) rfl
    (by decide)).1 (fun i _ _ => rfl)

/-! ## Claim C5 — address validation and fail-fast on a malformed host -/

set_option maxHeartbeats 1000000 in
set_option maxRecDepth 4000 in
theorem octet_repr_all : ∀ n : Fin 256,
    '.' ∉ (Nat.repr n.1).data ∧ parseOctet (Nat.repr n.1) = some n.1 := by decide

theorem splitChars_of_not_mem (sep : Char) (cs : List Char) (h : sep ∉ cs) :
    splitChars sep cs = [cs] := by
  induction cs with
  | nil => rfl
  | cons c cs ih =>
    have hc : c ≠ sep := fun he => h (he ▸ List.mem_cons_self c cs)
    have hcs : sep ∉ cs := fun hm => h (List.mem_cons_of_mem c hm)
    unfold splitChars
    rw [if_neg hc, ih hcs]

theorem splitChars_append_sep (sep : Char) (xs ys : List Char) (h : sep ∉ xs) :
    splitChars sep (xs ++ sep :: ys) = xs :: splitChars sep ys := by
  induction xs with
  | nil => simp [splitChars]
  | cons x xs ih =>
    have hx : x ≠ sep := fun he => h (he ▸ List.mem_cons_self x xs)
    have hxs : sep ∉ xs := fun hm => h (List.mem_cons_of_mem x hm)
    rw [List.cons_append]
    simp only [splitChars]
    rw [if_neg hx, ih hxs]

theorem pySplit_dot_quad (p1 p2 p3 p4 : String)
    (h1 : '.' ∉ p1.data) (h2 : '.' ∉ p2.data) (h3 : '.' ∉ p3.data) (h4 : '.' ∉ p4.data) :
    pySplit '.' (p1 ++ "." ++ p2 ++ "." ++ p3 ++ "." ++ p4) = [p1, p2, p3, p4] := by
  have hdata : (p1 ++ "." ++ p2 ++ "." ++ p3 ++ "." ++ p4).data =
      p1.data ++ '.' :: (p2.data ++ '.' :: (p3.data ++ '.' :: p4.data)) := by
    simp [String.data_append]
  unfold pySplit
  rw [hdata, splitChars_append_sep _ _ _ h1, splitChars_append_sep _ _ _ h2,
    splitChars_append_sep _ _ _ h3, splitChars_of_not_mem _ _ h4]
  rfl

/-- Every canonical dotted quad (each octet rendered by `Nat.repr` from
a value below 256) is accepted by `validate_ip`. -/
theorem ipv4_repr_quad_ok (a b c d : Fin 256) :
    validate_ip (Nat.repr a.1 ++ "." ++ Nat.repr b.1 ++ "." ++ Nat.repr c.1 ++ "." ++
      Nat.repr d.1) = true := by
  obtain ⟨hda, hoa⟩ := octet_repr_all a
  obtain ⟨hdb, hob⟩ := octet_repr_all b
  obtain ⟨hdc, hoc⟩ := octet_repr_all c
  obtain ⟨hdd, hod⟩ := octet_repr_all d
  have hsplit := pySplit_dot_quad (Nat.repr a.1) (Nat.repr b.1) (Nat.repr c.1) (Nat.repr d.1)
    hda hdb hdc hdd
  unfold validate_ip ip_address_ok ipv4_ok
  simp only [ipv4Int, hsplit, hoa, hob, hoc, hod, Option.isSome_some, Bool.true_or]

/-- Claim C5: `validate_ip` accepts exactly the strings `ip_address`
parses — in particular every canonical IPv4 dotted quad and the valid
IPv6 forms below — and rejects malformed strings; and `main` with a
malformed `--host` reports the invalid target and stops immediately:
command resolution is never invoked, no password prompt occurs, no
session attempt is made. -/
theorem C5_address_validation_and_fail_fast :
    (∀ (args : Args) (fs : FS) (pwds : Nat → String) (envs : Nat → AttemptEnv),
      validate_ip args.host = false →
      SwitchConnectBatch.main args fs pwds envs = ⟨true, false, false, 0, [], false, false⟩)
    ∧ (∀ s, validate_ip s = (ipv4_ok s || ipv6_ok s))
    ∧ (∀ a b c d : Fin 256,
        validate_ip (Nat.repr a.1 ++ "." ++ Nat.repr b.1 ++ "." ++ Nat.repr c.1 ++ "." ++
          Nat.repr d.1) = true)
    ∧ validate_ip "::1" = true
    ∧ validate_ip "2001:db8::ff00:42:8329" = true
    ∧ validate_ip "fe80::1%eth0" = true
    ∧ validate_ip "999.999.999.999" = false
    ∧ validate_ip "not-an-ip" = false
    ∧ validate_ip "1.2.3" = false
    ∧ validate_ip "01.2.3.4" = false
    ∧ validate_ip "1.2.3.256" = false
    ∧ validate_ip ":::" = false := by
  refine ⟨?_, fun s => rfl, ipv4_repr_quad_ok, by decide, by decide, by decide, by decide,
    by decide, by decide, by decide, by decide, by decide⟩
  intro args fs pwds envs hv
  unfold SwitchConnectBatch.main
  rw [hv]
  rfl

theorem C5_address_validation_and_fail_fast_witness :
    SwitchConnectBatch.main ⟨"not-an-ip", "cisco", some "show version", none⟩ ⟨fun _ => none⟩
        (fun _ => "pw") (fun _ => demoEnvDown) = ⟨true, false, false, 0, [], false, false⟩ :=
  C5_address_validation_and_fail_fast.1 ⟨"not-an-ip", "cisco", some "show version", none⟩
    ⟨fun _ => none⟩ (fun _ => "pw") (fun _ => demoEnvDown) (by decide)
